import Mathlib

/-!
Verification development for the usvc micro-service framework: the
dual-protocol (HTTP + RPC) serving and lifecycle-coordination engine.
The definitions below are shallow embeddings of the Go sources: the
request dispatcher and shutdown coordination of Conf.sharedServer and
Conf.Server (usvc.go), the convenience entry point RunHTTP and the
middleware httpMid and corsAllowAll (part_002), the single-address
coordinator, logMid and its corsAllowAll copy (part_003), the Server
struct with WithCORS (part_000), and the generic service runner Run
(part_001).
-/

namespace Usvc

/-! ## String primitives

Go strings.HasPrefix and strings.HasSuffix, embedded over the
underlying character lists so that they evaluate in the kernel. -/

/-- Go strings.HasPrefix s pre: pre is a literal leading substring of s. -/
def strHasPre (s pre : String) : Bool := pre.data.isPrefixOf s.data

/-- Go strings.HasSuffix s suf: suf is a literal trailing substring of s. -/
def strHasSuf (s suf : String) : Bool := suf.data.isSuffixOf s.data

/-! ## Request model

The fields of an inbound net/http Request that the embedded code reads:
the protocol major version, the method, the URL path, and the header
lookups performed by the dispatcher, the middleware and the CORS
wrappers. -/

/-- An inbound HTTP-layer request, restricted to the fields read by the
embedded handlers. -/
structure Request where
  protoMajor : Nat := 1
  contentType : String := ""
  method : String := "GET"
  path : String := "/"
  origin : String := ""
  xForwardedFor : String := ""
  remoteAddr : String := ""
  userAgent : String := ""
deriving DecidableEq, Repr

/-! ## Protocol dispatcher (usvc.go, sharedServer, lines 168-178) -/

/-- The two terminal handlers a request can be routed to. -/
inductive Route
  | rpc
  | web
deriving DecidableEq, Repr

/-- usvc.go line 170: r.ProtoMajor == 2 and the Content-Type header has
the literal leading substring "application/grpc". -/
def isGrpcRequest (r : Request) : Bool :=
  r.protoMajor == 2 && strHasPre r.contentType "application/grpc"

/-- usvc.go lines 169-178: the dispatch handler installed on the shared
listener. When a gRPC engine is configured the handler routes gRPC-marked
HTTP/2 requests to grpcServer.ServeHTTP and everything else to the HTTP
handler h; when grpcServer is nil the dispatcher is replaced by h itself
(line 176-178), so the gRPC check is never evaluated and the nil engine
is never touched. -/
def dispatch (grpcConfigured : Bool) (r : Request) : Route :=
  if grpcConfigured then
    if isGrpcRequest r then Route.rpc else Route.web
  else Route.web

/-! ## Error model and run-function result (usvc.go lines 218-231) -/

/-- Go error values as seen by the coordinator: http.ErrServerClosed or
any other non-nil error. A nil error is Option.none at use sites. -/
inductive GoErr
  | serverClosed
  | other (msg : String)
deriving DecidableEq, Repr

/-- usvc.go lines 227-230 (identical shape at part_003 lines 158-161):
after the blocking serve call returns serveErr, run returns the value
received from the shutdown goroutine when errors.Is(serveErr,
http.ErrServerClosed), and serveErr itself otherwise. -/
def runReturn (serveErr : GoErr) (shutdownResult : Option GoErr) : Option GoErr :=
  if serveErr = GoErr.serverClosed then shutdownResult else some serveErr

/-! ## Shutdown interleaving model (usvc.go lines 191-216)

In shared mode with a gRPC engine configured, the shutdown goroutine
spawns one helper goroutine that runs grpcServer.GracefulStop and then
closes the channel gc (lines 205-208); the main goroutine body calls
srv.Shutdown, then receives from gc, then sends the shutdown error on
the channel se that the run function returns from (lines 210-215 and
228). We model every interleaving of the two threads of control that
respects each program order and the close-before-receive semantics of
the channel gc. -/

/-- Completion events of the shared-mode shutdown sequence. -/
inductive ShutdownEv
  | grpcStopDone
  | closeGc
  | httpShutdownDone
  | recvGc
  | report
deriving DecidableEq, Repr

/-- Program order of the helper goroutine (usvc.go lines 205-208):
GracefulStop returns, then close(gc). -/
def grpcStopThread : List ShutdownEv :=
  [ShutdownEv.grpcStopDone, ShutdownEv.closeGc]

/-- Program order of the shutdown goroutine after the trigger (usvc.go
lines 210-215) joined with the run function returning the value sent on
se (line 228): srv.Shutdown returns, then the receive from gc returns,
then the result is reported. -/
def mainShutdownThread : List ShutdownEv :=
  [ShutdownEv.httpShutdownDone, ShutdownEv.recvGc, ShutdownEv.report]

/-- All five completion events. -/
def allShutdownEvents : List ShutdownEv :=
  [ShutdownEv.grpcStopDone, ShutdownEv.closeGc, ShutdownEv.httpShutdownDone,
   ShutdownEv.recvGc, ShutdownEv.report]

/-- xs occurs as a subsequence of ys, in order. -/
def subseq {α : Type} [BEq α] : List α → List α → Bool
  | [], _ => true
  | _ :: _, [] => false
  | x :: xs, y :: ys => if x == y then subseq xs ys else subseq (x :: xs) ys

/-- All ways of inserting x into a list. -/
def insertions {α : Type} (x : α) : List α → List (List α)
  | [] => [[x]]
  | y :: ys => (x :: y :: ys) :: (insertions x ys).map (y :: ·)

/-- All permutations of a list, by repeated insertion. -/
def perms {α : Type} : List α → List (List α)
  | [] => [[]]
  | x :: xs => (perms xs).flatMap (insertions x)

/-- The schedules of the shared-mode shutdown: total orders on the five
events that preserve both program orders and in which the receive from
gc comes after close(gc). -/
def schedules : List (List ShutdownEv) :=
  (perms allShutdownEvents).filter fun t =>
    subseq grpcStopThread t && subseq mainShutdownThread t &&
      decide (t.indexOf ShutdownEv.closeGc < t.indexOf ShutdownEv.recvGc)

/-- A representative schedule used to instantiate the ordering theorem. -/
def sampleSchedule : List ShutdownEv :=
  [ShutdownEv.grpcStopDone, ShutdownEv.closeGc, ShutdownEv.httpShutdownDone,
   ShutdownEv.recvGc, ShutdownEv.report]

/-! ## Drain boundedness model (usvc.go line 210, part_003 lines 144-149)

Abstract clock: an Option Nat is the instant an event happens, none
meaning it never happens. net/http Server.Shutdown(ctx) returns as soon
as either the in-flight work has drained or ctx is done. -/

/-- Earliest of two optional instants. -/
def optMin : Option Nat → Option Nat → Option Nat
  | none, b => b
  | some a, none => some a
  | some a, some b => some (min a b)

/-- The instant Server.Shutdown(ctx) returns: the earlier of the drain
completing and the context becoming done. -/
def shutdownReturnsAt (drainDoneAt ctxDoneAt : Option Nat) : Option Nat :=
  optMin drainDoneAt ctxDoneAt

/-- usvc.go line 210: sharedServer calls srv.Shutdown(context.Background()).
A background context is never done, and no code path cancels it: the
signal channel is consumed once by the select at lines 197-200 and never
read again. -/
def sharedShutdownCtxDoneAt : Option Nat := none

/-- part_003 lines 144-148: the single-address coordinator builds the
shutdown context with context.WithTimeout(context.Background(), 5s) and
a goroutine that cancels it when a second signal arrives on c. The
context is done at the earlier of instant 5 and the second signal. -/
def confShutdownCtxDoneAt (secondSignalAt : Option Nat) : Option Nat :=
  optMin (some 5) secondSignalAt

/-! ## Latency and access-log middleware (part_002 httpMid, part_003 logMid) -/

/-- Observable effects of the instrumentation wrapper: one latency-recorder
write, one access-log emission, or an effect of the wrapped inner handler. -/
inductive MidEffect
  | recordLatency
  | accessLog
  | innerEffect (n : Nat)
deriving DecidableEq, Repr

/-- part_002 lines 27-31 and part_003 lines 169-173: the switch on
r.URL.Path that exempts /metrics and /health. -/
def exemptPath (p : String) : Bool := p == "/metrics" || p == "/health"

/-- part_002 lines 25-53, httpMid: on an exempt path the inner handler is
invoked and the wrapper returns before any instrumentation is set up; on
every other path the inner handler runs and the deferred block then
records exactly one latency sample and emits exactly one log line,
independent of the response status, which the wrapper never inspects.
The inner handler is abstracted as the list of its own effects. -/
def httpMid (inner : Request → List Nat) (r : Request) : List MidEffect :=
  if exemptPath r.path then (inner r).map MidEffect.innerEffect
  else (inner r).map MidEffect.innerEffect ++
    [MidEffect.recordLatency, MidEffect.accessLog]

/-- part_003 lines 167-195, logMid: textually identical to httpMid. -/
def logMid (inner : Request → List Nat) (r : Request) : List MidEffect :=
  if exemptPath r.path then (inner r).map MidEffect.innerEffect
  else (inner r).map MidEffect.innerEffect ++
    [MidEffect.recordLatency, MidEffect.accessLog]

/-! ## CORS wrappers (part_002 corsAllowAll, part_000 WithCORS) -/

/-- The response-side observations of a CORS wrapper: the three allow
headers, the Vary: Origin header, an explicit status written by the
wrapper itself (none when the response is left to the inner handler),
and whether the wrapped inner handler was invoked. -/
structure CorsResponse where
  allowOrigin : Option String := none
  allowMethods : Option String := none
  maxAge : Option String := none
  varyOrigin : Bool := false
  status : Option Nat := none
  innerCalled : Bool := false
deriving DecidableEq, Repr

/-- part_002 lines 59-78 (copied at part_003 lines 201-220), corsAllowAll:
OPTIONS gets the wildcard allow headers and 204 without the inner
handler; GET and POST get the same headers and the inner handler; every
other method gets 405 without the inner handler. -/
def corsAllowAll (r : Request) : CorsResponse :=
  if r.method = "OPTIONS" then
    { allowOrigin := some "*", allowMethods := some "GET, POST",
      maxAge := some "86400", status := some 204, innerCalled := false }
  else if r.method = "GET" ∨ r.method = "POST" then
    { allowOrigin := some "*", allowMethods := some "GET, POST",
      maxAge := some "86400", innerCalled := true }
  else
    { status := some 405, innerCalled := false }

/-- part_000 lines 98-101: wildcard origin mode holds exactly when the
configured suffix list is the single entry "*". -/
def allowAllOrigin (allowedSuffix : List String) : Bool :=
  match allowedSuffix with
  | [s] => s == "*"
  | _ => false

/-- part_000 lines 106-111: the loop inside the closure as, returning the
origin o on the first configured suffix that o literally ends with, and
the empty string when none matches. -/
def asLoop (o : String) : List String → String
  | [] => ""
  | s :: rest => if strHasSuf o s then o else asLoop o rest

/-- part_000 lines 102-112: the closure as. In wildcard mode it returns
the literal "*"; otherwise it runs the suffix loop. -/
def asOrigin (allowedSuffix : List String) (o : String) : String :=
  if allowAllOrigin allowedSuffix then "*" else asLoop o allowedSuffix

/-- part_000 lines 114-135, the handler installed by WithCORS. OPTIONS
with an origin the closure as maps to the empty string gets 403 and
returns; OPTIONS with an accepted origin gets the allow headers
(echoing the origin), Vary: Origin when the wildcard matched, and then
falls through to the inner handler, since the OPTIONS branch has no
return after setting the headers. A method that is neither OPTIONS nor
in the allowed set gets 405 and returns; an allowed method falls through
to the inner handler with no headers added. -/
def withCORS (allowedMethods allowedSuffix : List String) (r : Request) :
    CorsResponse :=
  if r.method = "OPTIONS" then
    let o := asOrigin allowedSuffix r.origin
    if o = "" then
      { status := some 403, innerCalled := false }
    else
      { allowOrigin := some o,
        allowMethods := some (String.intercalate ", " allowedMethods),
        maxAge := some "86400", varyOrigin := o == "*", innerCalled := true }
  else if allowedMethods.contains r.method then
    { innerCalled := true }
  else
    { status := some 405, innerCalled := false }

/-! ## Address configuration (usvc.go Conf.Server, part_002 RunHTTP) -/

/-- The two listen addresses of Conf (usvc.go lines 33-40, HTTPAddr and
GRPCAddr). -/
structure Conf where
  httpAddr : String := ":8080"
  grpcAddr : String := ":8080"
deriving DecidableEq, Repr

/-- The two serving modes of Conf.Server. -/
inductive ServerMode
  | shared
  | split
deriving DecidableEq, Repr

/-- usvc.go line 127: Conf.Server takes the single-listener shared path
exactly when GRPCAddr equals HTTPAddr, and otherwise composes two
independent runners (lines 133-164). -/
def serverMode (c : Conf) : ServerMode :=
  if c.grpcAddr = c.httpAddr then ServerMode.shared else ServerMode.split

/-- The listen addresses Conf.Server opens: the HTTP server address in
both modes (usvc.go lines 181, 222, 225) plus, in the split path only, a
second net.Listen on GRPCAddr (line 144). -/
def listenAddrs (c : Conf) : List String :=
  if c.grpcAddr = c.httpAddr then [c.httpAddr] else [c.httpAddr, c.grpcAddr]

/-- part_002 lines 13-23, RunHTTP: if c.GRPCAddr differs from c.HTTPAddr
it is overwritten with c.HTTPAddr before Conf.Server is called. -/
def runHTTPConf (c : Conf) : Conf :=
  if c.grpcAddr ≠ c.httpAddr then { c with grpcAddr := c.httpAddr } else c

/-! ## Service runner (part_001 lines 13-26) -/

/-- Which side of the select in Run fires first: the cancellation context
becoming done, or the run goroutine sending its result on errc. -/
inductive RaceWinner
  | ctxDone
  | runDone
deriving DecidableEq, Repr

/-- Outcome of the service runner: the error it returns and whether the
Shutdown hook was invoked. -/
structure SvcOutcome where
  result : Option GoErr
  shutdownCalled : Bool
deriving DecidableEq, Repr

/-- part_001 lines 13-26, Run: svc.Run is started asynchronously and a
select chooses exactly one branch. When the context is done first,
svc.Shutdown is invoked and its error is returned, abandoning the run
result; when run completes first, its error is returned directly and
Shutdown is never invoked. -/
def runService (w : RaceWinner) (runErr shutdownErr : Option GoErr) :
    SvcOutcome :=
  match w with
  | RaceWinner.ctxDone => { result := shutdownErr, shutdownCalled := true }
  | RaceWinner.runDone => { result := runErr, shutdownCalled := false }

/-! ## Concrete requests and configurations used by witnesses -/

/-- A gRPC-marked HTTP/2 request. -/
def grpcReq : Request :=
  { protoMajor := 2, contentType := "application/grpc+proto", method := "POST" }

/-- A plain HTTP/1.1 browser request. -/
def plainReq : Request :=
  { protoMajor := 1, contentType := "text/html", method := "GET" }

/-- A preflight request from an origin under example.com. -/
def preflightReq : Request :=
  { method := "OPTIONS", origin := "https://app.example.com" }

/-- A DELETE request, outside every allowed method set used here. -/
def deleteReq : Request := { method := "DELETE" }

/-- A preflight request from a lookalike origin that merely string-ends
with example.com. -/
def evilReq : Request :=
  { method := "OPTIONS", origin := "https://evilexample.com" }

/-- A configuration with distinct HTTP and gRPC addresses. -/
def splitConf : Conf := { httpAddr := ":8080", grpcAddr := ":9090" }

/-! ## Theorems -/

/-- C1. For every inbound request whose protocol major version is 2 and
whose Content-Type header begins with the RPC media-type marker
application/grpc, the dispatcher of the shared-mode server with a gRPC
engine configured routes to the RPC serving entry point; Route is an
exclusive choice, so the HTTP handler is never invoked for it. -/
theorem dispatch_grpc_requests_to_rpc (r : Request)
    (h2 : r.protoMajor = 2)
    (hct : strHasPre r.contentType "application/grpc" = true) :
    dispatch true r = Route.rpc := by
  simp [dispatch, isGrpcRequest, h2, hct]

/-- Witness for C1 at a concrete gRPC request. -/
theorem dispatch_grpc_requests_to_rpc_witness :
    grpcReq.protoMajor = 2
  ∧ strHasPre grpcReq.contentType "application/grpc" = true
  ∧ dispatch true grpcReq = Route.rpc :=
  ⟨rfl, by decide, dispatch_grpc_requests_to_rpc grpcReq rfl (by decide)⟩

/-- C2. Every request that does not carry the gRPC marker, and every
request of any shape when no gRPC engine is configured, is routed to the
HTTP handler; in the engineless case the dispatcher is the HTTP handler
itself, so the nil engine is never dereferenced. -/
theorem dispatch_non_grpc_to_http (g : Bool) (r : Request)
    (h : isGrpcRequest r = false ∨ g = false) :
    dispatch g r = Route.web := by
  cases g with
  | false => rfl
  | true =>
    rcases h with h | h
    · simp [dispatch, h]
    · simp at h

/-- Witness for C2 at a concrete plain request with an engine configured. -/
theorem dispatch_non_grpc_to_http_witness :
    (isGrpcRequest plainReq = false ∨ (true : Bool) = false)
  ∧ dispatch true plainReq = Route.web
  ∧ dispatch false grpcReq = Route.web :=
  ⟨Or.inl (by decide),
   dispatch_non_grpc_to_http true plainReq (Or.inl (by decide)),
   dispatch_non_grpc_to_http false grpcReq (Or.inr rfl)⟩

/-- C4. When the blocking serve call returns the server-closed condition,
the run function returns the value produced by the shutdown sequence,
whatever it is, and not the server-closed error; any other serve error
is returned as-is. -/
theorem run_filters_server_closed (e : GoErr) (sd : Option GoErr) :
    runReturn GoErr.serverClosed sd = sd
  ∧ (e ≠ GoErr.serverClosed → runReturn e sd = some e) := by
  constructor
  · simp [runReturn]
  · intro h
    simp [runReturn, h]

/-- Witness for C4 at concrete errors. -/
theorem run_filters_server_closed_witness :
    runReturn GoErr.serverClosed (some (GoErr.other "drain failed"))
      = some (GoErr.other "drain failed")
  ∧ GoErr.other "bind failed" ≠ GoErr.serverClosed
  ∧ runReturn (GoErr.other "bind failed") none = some (GoErr.other "bind failed") :=
  ⟨(run_filters_server_closed (GoErr.other "x")
      (some (GoErr.other "drain failed"))).1,
   by decide,
   (run_filters_server_closed (GoErr.other "bind failed") none).2 (by decide)⟩

/-- C8. The convenience entry point RunHTTP silently overwrites a distinct
gRPC address with the HTTP address and runs in shared mode on the single
HTTP listener, while the general entry point Conf.Server with the same
distinct addresses runs genuine split mode with two independent
listeners. -/
theorem runHTTP_forces_shared (c : Conf) (h : c.grpcAddr ≠ c.httpAddr) :
    serverMode (runHTTPConf c) = ServerMode.shared
  ∧ (runHTTPConf c).grpcAddr = c.httpAddr
  ∧ (runHTTPConf c).httpAddr = c.httpAddr
  ∧ listenAddrs (runHTTPConf c) = [c.httpAddr]
  ∧ serverMode c = ServerMode.split
  ∧ listenAddrs c = [c.httpAddr, c.grpcAddr] := by
  simp [runHTTPConf, serverMode, listenAddrs, h]

/-- Witness for C8 at a concrete split configuration. -/
theorem runHTTP_forces_shared_witness :
    splitConf.grpcAddr ≠ splitConf.httpAddr
  ∧ serverMode (runHTTPConf splitConf) = ServerMode.shared
  ∧ serverMode splitConf = ServerMode.split :=
  ⟨by decide,
   (runHTTP_forces_shared splitConf (by decide)).1,
   (runHTTP_forces_shared splitConf (by decide)).2.2.2.2.1⟩

/-- C9. The service runner races the blocking Run against the cancellation
context and exactly one branch executes: when the context is done first
the Shutdown hook is invoked and its error returned, abandoning the run
result; when Run completes first its error is returned directly and
Shutdown is never invoked. -/
theorem runner_race_branches (re se : Option GoErr) :
    runService RaceWinner.ctxDone re se
      = { result := se, shutdownCalled := true }
  ∧ runService RaceWinner.runDone re se
      = { result := re, shutdownCalled := false }
  ∧ ∀ w, (runService w re se).shutdownCalled = decide (w = RaceWinner.ctxDone) := by
  refine ⟨rfl, rfl, ?_⟩
  intro w
  cases w <;> rfl

/-- C3. In shared mode with a gRPC engine configured, in every schedule of
the shutdown sequence the run function reports completion only after both
the gRPC graceful stop and the HTTP shutdown have finished: the report
event is preceded by both completion events, so success is never reported
after only one side has drained. -/
theorem shared_shutdown_waits_for_both :
    ∀ t ∈ schedules,
      t.indexOf ShutdownEv.grpcStopDone < t.indexOf ShutdownEv.report
    ∧ t.indexOf ShutdownEv.httpShutdownDone < t.indexOf ShutdownEv.report := by
  decide

/-- Witness for C3 at a concrete schedule. -/
theorem shared_shutdown_waits_for_both_witness :
    sampleSchedule.indexOf ShutdownEv.grpcStopDone
      < sampleSchedule.indexOf ShutdownEv.report
  ∧ sampleSchedule.indexOf ShutdownEv.httpShutdownDone
      < sampleSchedule.indexOf ShutdownEv.report :=
  shared_shutdown_waits_for_both sampleSchedule (by decide)

/-- C5 counterexample. The shared-mode coordinator passes
context.Background() to the HTTP shutdown and never consumes a second
signal, so with in-flight handlers that hang forever (drain instant
none) the graceful wait never returns: shutdown is not bounded, refuting
the claim that the drain is always bounded and that a second signal
cancels the ongoing graceful wait. -/
theorem shared_drain_unbounded_cex :
    shutdownReturnsAt none sharedShutdownCtxDoneAt = none := rfl

/-- C5 amended. Only the single-address coordinator bounds the drain: its
shutdown context is done by the hard-coded instant 5 (five seconds, not a
caller-visible setting), so shutdown returns by instant 5 whatever the
in-flight work does, and a second termination signal at instant n cancels
the wait at min 5 n even when handlers hang forever. The shared-mode
coordinator passes a background context, so with hanging handlers its
drain never returns. -/
theorem drain_boundedness_amended (h : Option Nat) (n : Nat) :
    (∃ t, shutdownReturnsAt h (confShutdownCtxDoneAt none) = some t ∧ t ≤ 5)
  ∧ shutdownReturnsAt none (confShutdownCtxDoneAt (some n)) = some (min 5 n)
  ∧ shutdownReturnsAt none sharedShutdownCtxDoneAt = none := by
  refine ⟨?_, rfl, rfl⟩
  cases h with
  | none => exact ⟨5, rfl, le_refl 5⟩
  | some a => exact ⟨min a 5, rfl, min_le_right a 5⟩

/-- Effects of the wrapped inner handler never mention the latency
recorder or the access log of the wrapper. -/
theorem count_map_innerEffect (l : List Nat) (e : MidEffect)
    (he : ∀ n, MidEffect.innerEffect n ≠ e) :
    (l.map MidEffect.innerEffect).count e = 0 := by
  rw [List.count_eq_zero]
  intro hmem
  rcases List.mem_map.mp hmem with ⟨n, _, hn⟩
  exact he n hn

/-- C6. Both instrumentation wrappers instrument a request exactly when
its path is not exempt: for /health and /metrics they add zero
latency-recorder writes and zero access-log emissions, and for every
other path exactly one of each, whatever the inner handler does and
independent of the response status, which the wrappers never inspect. -/
theorem mid_instruments_iff_not_exempt (inner : Request → List Nat)
    (r : Request) :
    (httpMid inner r).count MidEffect.recordLatency
      = (if exemptPath r.path then 0 else 1)
  ∧ (httpMid inner r).count MidEffect.accessLog
      = (if exemptPath r.path then 0 else 1)
  ∧ (logMid inner r).count MidEffect.recordLatency
      = (if exemptPath r.path then 0 else 1)
  ∧ (logMid inner r).count MidEffect.accessLog
      = (if exemptPath r.path then 0 else 1) := by
  have hrec : ∀ l : List Nat,
      (l.map MidEffect.innerEffect).count MidEffect.recordLatency = 0 :=
    fun l => count_map_innerEffect l MidEffect.recordLatency (fun n h => by cases h)
  have hlog : ∀ l : List Nat,
      (l.map MidEffect.innerEffect).count MidEffect.accessLog = 0 :=
    fun l => count_map_innerEffect l MidEffect.accessLog (fun n h => by cases h)
  cases hexp : exemptPath r.path with
  | true =>
    simp [httpMid, logMid, hexp, hrec, hlog]
  | false =>
    simp [httpMid, logMid, hexp, List.count_append, hrec, hlog]

/-- C7 counterexample. The restricted-origin variant does not complete an
allowed preflight without the inner handler: the OPTIONS branch of
WithCORS sets the allow headers and then falls through to the inner
handler, so on a concrete allowed-origin OPTIONS request the inner
handler is invoked, refuting the claim that both variants respond to
OPTIONS without ever invoking the wrapped handler. -/
theorem withCORS_preflight_forwards_cex :
    (withCORS ["GET"] ["example.com"] preflightReq).innerCalled = true
  ∧ (withCORS ["GET"] ["example.com"] preflightReq).maxAge = some "86400" := by
  decide

/-- C7 amended. For every OPTIONS request the wildcard variant writes the
allow headers, including the 86400 max-age, and completes with 204
without invoking the inner handler; the restricted variant on an
accepted-origin OPTIONS writes the same allow headers but then invokes
the inner handler. For every request whose method is neither OPTIONS nor
in the allowed set, both variants respond 405 without invoking the inner
handler. -/
theorem cors_behavior_amended (r : Request) (ms ss : List String) :
    (r.method = "OPTIONS" →
       (corsAllowAll r).allowOrigin = some "*"
     ∧ (corsAllowAll r).maxAge = some "86400"
     ∧ (corsAllowAll r).status = some 204
     ∧ (corsAllowAll r).innerCalled = false)
  ∧ (r.method = "OPTIONS" → asOrigin ss r.origin ≠ "" →
       (withCORS ms ss r).allowOrigin = some (asOrigin ss r.origin)
     ∧ (withCORS ms ss r).maxAge = some "86400"
     ∧ (withCORS ms ss r).innerCalled = true)
  ∧ (r.method ≠ "OPTIONS" → ¬(r.method = "GET" ∨ r.method = "POST") →
       (corsAllowAll r).status = some 405
     ∧ (corsAllowAll r).innerCalled = false)
  ∧ (r.method ≠ "OPTIONS" → ms.contains r.method = false →
       (withCORS ms ss r).status = some 405
     ∧ (withCORS ms ss r).innerCalled = false) := by
  refine ⟨?_, ?_, ?_, ?_⟩
  · intro hm
    simp [corsAllowAll, hm]
  · intro hm ho
    simp [withCORS, hm, ho]
  · intro hm hgp
    simp [corsAllowAll, hm, hgp]
  · intro hm hc
    have hnm : r.method ∉ ms := by simpa using hc
    simp [withCORS, hm, hnm]

/-- Witness for C7 amended: the wildcard variant on a concrete preflight
and the restricted variant on a concrete DELETE request. -/
theorem cors_behavior_amended_witness :
    ((corsAllowAll preflightReq).allowOrigin = some "*"
     ∧ (corsAllowAll preflightReq).maxAge = some "86400"
     ∧ (corsAllowAll preflightReq).status = some 204
     ∧ (corsAllowAll preflightReq).innerCalled = false)
  ∧ ((withCORS ["GET"] ["example.com"] deleteReq).status = some 405
     ∧ (withCORS ["GET"] ["example.com"] deleteReq).innerCalled = false) :=
  ⟨(cors_behavior_amended preflightReq ["GET"] ["example.com"]).1 rfl,
   (cors_behavior_amended deleteReq ["GET"] ["example.com"]).2.2.2
     (by decide) (by decide)⟩

/-- The suffix loop of the closure as returns the origin when some
configured suffix matches and the empty string otherwise. -/
theorem asLoop_eq_any (o : String) (ss : List String) :
    asLoop o ss = if ss.any (fun s => strHasSuf o s) then o else "" := by
  induction ss with
  | nil => rfl
  | cons s rest ih =>
    cases hs : strHasSuf o s with
    | true => simp [asLoop, hs]
    | false => simp [asLoop, hs, ih]

/-- C10 counterexample. The claimed biconditional — an origin is allowed
exactly when it literally ends with a configured suffix — fails at the
empty origin: with configured suffix list containing the empty string,
the empty origin literally ends with that suffix, yet WithCORS maps it
to the empty sentinel and answers the preflight with 403 and no echoed
origin. -/
theorem withCORS_empty_origin_cex :
    strHasSuf "" "" = true
  ∧ (withCORS ["GET"] [""] { method := "OPTIONS", origin := "" }).status
      = some 403
  ∧ (withCORS ["GET"] [""] { method := "OPTIONS", origin := "" }).allowOrigin
      ≠ some "" := by
  decide

/-- C10 amended. In the restricted-origin variant a preflight origin is
echoed back in Access-Control-Allow-Origin exactly when it is nonempty
and literally string-ends with one of the configured suffixes, with no
anchoring at a dot or hostname boundary; a preflight whose origin is
empty or matches no configured suffix receives 403 with no CORS headers
and without the inner handler. -/
theorem withCORS_suffix_match_amended (ms ss : List String) (r : Request)
    (hw : allowAllOrigin ss = false) (hm : r.method = "OPTIONS") :
    ((withCORS ms ss r).allowOrigin = some r.origin ↔
       r.origin ≠ "" ∧ ∃ s ∈ ss, strHasSuf r.origin s = true)
  ∧ (¬(r.origin ≠ "" ∧ ∃ s ∈ ss, strHasSuf r.origin s = true) →
       (withCORS ms ss r).status = some 403
     ∧ (withCORS ms ss r).allowOrigin = none
     ∧ (withCORS ms ss r).maxAge = none
     ∧ (withCORS ms ss r).innerCalled = false) := by
  have ho : asOrigin ss r.origin
      = if ss.any (fun s => strHasSuf r.origin s) then r.origin else "" := by
    simp [asOrigin, hw, asLoop_eq_any]
  cases ha : ss.any (fun s => strHasSuf r.origin s) with
  | false =>
    have hnone : ¬∃ s ∈ ss, strHasSuf r.origin s = true := by
      simpa [List.any_eq_true] using ha
    rw [ha] at ho
    constructor
    · simp [withCORS, hm, ho, hnone]
    · intro _
      simp [withCORS, hm, ho]
  | true =>
    have hsome : ∃ s ∈ ss, strHasSuf r.origin s = true := by
      simpa [List.any_eq_true] using ha
    rw [ha] at ho
    by_cases hoe : r.origin = ""
    · rw [hoe] at ho
      constructor
      · simp [withCORS, hm, ho, hoe]
      · intro _
        simp [withCORS, hm, ho, hoe]
    · constructor
      · simp [withCORS, hm, ho, hoe, hsome]
      · intro hcon
        exact absurd ⟨hoe, hsome⟩ hcon

/-- Witness for C10 amended: under configured suffix example.com, the
lookalike origin https://evilexample.com is echoed back on preflight. -/
theorem withCORS_suffix_match_amended_witness :
    allowAllOrigin ["example.com"] = false
  ∧ evilReq.method = "OPTIONS"
  ∧ (withCORS ["GET"] ["example.com"] evilReq).allowOrigin
      = some "https://evilexample.com" :=
  ⟨by decide, rfl,
   (withCORS_suffix_match_amended ["GET"] ["example.com"] evilReq
      (by decide) rfl).1.mpr (by decide)⟩

end Usvc
